import Mathlib

/-!
Shallow embedding of the bonding-curve pricing engine
(`src/unnamed/part_002`, the module exporting `CURVE_CONSTANTS`,
`calculateBuyPrice`, `calculateSellPrice`, `calculatePriceAtSupply`,
`calculateMarketCap`, `calculatePriceImpact`, `validateTrade` and
`calculateOptimalTradeSize`).

Modelling conventions:
- BN.js big integers are modelled as `Nat` (supplies and amounts are
  non-negative in every reachable state; a BN amount that is zero or
  negative makes each loop below run zero times, which the `Nat` value 0
  reproduces).
- The JavaScript floating-point expression `Math.pow(1.1, s)` is modelled
  by the exact rational value `(11 / 10) ^ s`, so the fixed-point factor
  `Math.floor(Math.pow(1.1, s) * 1000)` becomes `11 ^ s * 1000 / 10 ^ s`
  with `Nat` (floor) division.
- The constant factor `new BN(CURVE_CONSTANTS.FEE_PERCENTAGE * 10000)` is
  `new BN(250)`: the IEEE double nearest to 0.025 times 10000 rounds to
  exactly 250.
- JavaScript numbers that carry fractional values (price impact, slippage
  tolerance) are modelled as `ℚ`.
- A thrown JavaScript exception is modelled as `Except.error` with the
  thrown message; `validateTrade` returns its record value directly.
-/

/-- CURVE_CONSTANTS.BASE_PRICE (lamports). -/
def BASE_PRICE : Nat := 1000000

/-- CURVE_CONSTANTS.MAX_SUPPLY. -/
def MAX_SUPPLY : Nat := 1000000

/-- CURVE_CONSTANTS.MIN_PRICE. -/
def MIN_PRICE : Nat := 100000

/-- The fixed-point multiplier `Math.floor(Math.pow(1.1, supply) * 1000)`
computed with exact rational arithmetic: `floor((11/10)^s * 1000)`. -/
def multiplierFixed (s : Nat) : Nat := 11 ^ s * 1000 / 10 ^ s

/-- `calculatePriceAtSupply(supply, basePrice)`: returns `basePrice` for
`supply <= 0`, otherwise `BN.max(basePrice * floor(1.1^s*1000) / 1000,
MIN_PRICE)`. -/
def calculatePriceAtSupply (supply : Nat) (basePrice : Nat) : Nat :=
  if supply = 0 then basePrice
  else max (basePrice * multiplierFixed supply / 1000) MIN_PRICE

/-- `calculateMarketCap(currentSupply, basePrice)`. -/
def calculateMarketCap (currentSupply : Nat) (basePrice : Nat) : Nat :=
  if currentSupply = 0 then 0
  else calculatePriceAtSupply currentSupply basePrice * currentSupply

/-- The record returned by `calculateBuyPrice` and `calculateSellPrice`
(the `PriceCalculation` interface). -/
structure PriceCalculation where
  price : Nat
  totalCost : Nat
  fee : Nat
  netCost : Nat
  pricePerToken : ℚ
  marketCap : Nat
deriving Repr, DecidableEq

/-- The `for` loop of `calculateBuyPrice`: iteration `i` adds
`calculatePriceAtSupply(currentSupply + i)` to `totalCost` and overwrites
`currentPrice`; returns `(totalCost, currentPrice)` after `n` iterations. -/
def buyLoop (s b : Nat) : Nat → Nat × Nat
  | 0 => (0, 0)
  | n + 1 =>
    let acc := buyLoop s b n
    let price := calculatePriceAtSupply (s + n) b
    (acc.1 + price, price)

/-- `calculateBuyPrice(currentSupply, amount, basePrice)`. -/
def calculateBuyPrice (currentSupply amount : Nat)
    (basePrice : Nat := BASE_PRICE) : PriceCalculation :=
  let acc := buyLoop currentSupply basePrice amount
  let totalCost := acc.1
  let currentPrice := acc.2
  let fee := totalCost * 250 / 10000
  let netCost := totalCost + fee
  let pricePerToken : ℚ := (currentPrice : ℚ) / 10 ^ 9
  let marketCap := calculateMarketCap (currentSupply + amount) basePrice
  { price := currentPrice, totalCost := totalCost, fee := fee,
    netCost := netCost, pricePerToken := pricePerToken, marketCap := marketCap }

/-- The `for` loop of `calculateSellPrice`: iteration `i` adds
`calculatePriceAtSupply(currentSupply - (i + 1))` to `totalRevenue`. -/
def sellLoop (s b : Nat) : Nat → Nat × Nat
  | 0 => (0, 0)
  | n + 1 =>
    let acc := sellLoop s b n
    let price := calculatePriceAtSupply (s - (n + 1)) b
    (acc.1 + price, price)

/-- The value built by `calculateSellPrice` after its guard has passed. -/
def sellQuote (currentSupply amount : Nat) (basePrice : Nat) : PriceCalculation :=
  let acc := sellLoop currentSupply basePrice amount
  let totalRevenue := acc.1
  let currentPrice := acc.2
  let fee := totalRevenue * 250 / 10000
  let netRevenue := totalRevenue - fee
  let pricePerToken : ℚ := (currentPrice : ℚ) / 10 ^ 9
  let marketCap := calculateMarketCap (currentSupply - amount) basePrice
  { price := currentPrice, totalCost := totalRevenue, fee := fee,
    netCost := netRevenue, pricePerToken := pricePerToken, marketCap := marketCap }

/-- `calculateSellPrice(currentSupply, amount, basePrice)`: throws
(`Except.error`) when `currentSupply < amount`, otherwise returns the
quote. -/
def calculateSellPrice (currentSupply amount : Nat)
    (basePrice : Nat := BASE_PRICE) : Except String PriceCalculation :=
  if currentSupply < amount then
    Except.error "Cannot sell more tokens than current supply"
  else
    Except.ok (sellQuote currentSupply amount basePrice)

/-- The BN integer part of `calculatePriceImpact`:
`newPrice.sub(currentPrice).abs().mul(10000).div(currentPrice)`, where
`newPrice = price(currentSupply + tradeAmount)` for buys and
`price(currentSupply - tradeAmount)` for sells. -/
def impactBN (currentSupply tradeAmount : Nat) (isBuy : Bool)
    (basePrice : Nat) : Nat :=
  let currentPrice := calculatePriceAtSupply currentSupply basePrice
  let newPrice :=
    if isBuy then calculatePriceAtSupply (currentSupply + tradeAmount) basePrice
    else calculatePriceAtSupply (currentSupply - tradeAmount) basePrice
  let priceDiff := max newPrice currentPrice - min newPrice currentPrice
  priceDiff * 10000 / currentPrice

/-- `calculatePriceImpact(currentSupply, tradeAmount, isBuy, basePrice)`:
the integer ratio above converted to a JavaScript number, divided by 100
and capped at 100 via `Math.min`. -/
def calculatePriceImpact (currentSupply tradeAmount : Nat) (isBuy : Bool)
    (basePrice : Nat := BASE_PRICE) : ℚ :=
  min ((impactBN currentSupply tradeAmount isBuy basePrice : ℚ) / 100) 100

/-- The `{ isValid, error? }` record returned by `validateTrade`. -/
structure ValidationResult where
  isValid : Bool
  error : Option String
deriving Repr, DecidableEq

/-- `validateTrade(currentSupply, amount, isBuy, maxSlippage)`. The early
returns of the source are mirrored in order. The slippage message of the
source interpolates the computed impact and the tolerance into the string;
the interpolated numbers are display-only and are omitted here. -/
def validateTrade (currentSupply amount : Nat) (isBuy : Bool)
    (maxSlippage : ℚ := 5) : ValidationResult :=
  if amount = 0 then
    { isValid := false, error := some "Amount must be greater than 0" }
  else if isBuy = true ∧ MAX_SUPPLY < currentSupply + amount then
    { isValid := false, error := some "Exceeds maximum supply" }
  else if isBuy = false ∧ currentSupply < amount then
    { isValid := false, error := some "Cannot sell more than current supply" }
  else if maxSlippage < calculatePriceImpact currentSupply amount isBuy BASE_PRICE then
    { isValid := false, error := some "Price impact exceeds maximum slippage" }
  else
    { isValid := true, error := none }

/-- The `while (low <= high)` binary-search loop of
`calculateOptimalTradeSize`, modelled with explicit fuel. Each iteration
either raises `low` past `mid >= low` or lowers `high` below `mid`, so
`high + 1 - low` strictly decreases and fuel `high + 1 - low + 1` (at most
`high + 1` from the entry point, where `low = 1`) makes the fuel pattern
irrelevant to the computed result. -/
def optLoop (s : Nat) (maxPriceImpact : ℚ) (isBuy : Bool) (b : Nat) :
    Nat → Nat → Nat → Nat → Nat
  | 0, _, _, optimal => optimal
  | fuel + 1, low, high, optimal =>
    if low ≤ high then
      let mid := (low + high) / 2
      if calculatePriceImpact s mid isBuy b ≤ maxPriceImpact then
        optLoop s maxPriceImpact isBuy b fuel (mid + 1) high mid
      else
        optLoop s maxPriceImpact isBuy b fuel low (mid - 1) optimal
    else optimal

/-- `calculateOptimalTradeSize(currentSupply, maxPriceImpact, isBuy,
basePrice)`: binary search over `[1, bound]` with `bound = maxSupply -
currentSupply` for buys and `currentSupply` for sells, `optimal`
initialised to 1. -/
def calculateOptimalTradeSize (currentSupply : Nat) (maxPriceImpact : ℚ)
    (isBuy : Bool) (basePrice : Nat := BASE_PRICE) : Nat :=
  let high := if isBuy then MAX_SUPPLY - currentSupply else currentSupply
  optLoop currentSupply maxPriceImpact isBuy basePrice (high + 1) 1 high 1

/-- Modelled from the spec: the price-at-supply formula as the
specification words it, `price(supply) = max(minPrice, floor(basePrice *
priceMultiplierPerUnit^supply))`, with the real exponentiation
`1.1^supply` taken exactly as `(11/10)^supply`. Declared only to compare
the implemented `calculatePriceAtSupply` against the claimed formula. -/
def specPriceAtSupply (supply basePrice : Nat) : Nat :=
  max MIN_PRICE (basePrice * 11 ^ supply / 10 ^ supply)

/-! ### Helper lemmas -/

lemma buyLoop_fst (s b : Nat) (n : Nat) :
    (buyLoop s b n).1 = ∑ i ∈ Finset.range n, calculatePriceAtSupply (s + i) b := by
  induction n with
  | zero => simp [buyLoop]
  | succ k ih => simp [buyLoop, ih, Finset.sum_range_succ]

lemma sellLoop_fst (s b : Nat) (n : Nat) :
    (sellLoop s b n).1 = ∑ i ∈ Finset.range n, calculatePriceAtSupply (s - (i + 1)) b := by
  induction n with
  | zero => simp [sellLoop]
  | succ k ih => simp [sellLoop, ih, Finset.sum_range_succ]

lemma fee_eq_div_forty (t : Nat) : t * 250 / 10000 = t / 40 := by
  omega

lemma multiplierFixed_le_succ (s : Nat) :
    multiplierFixed s ≤ multiplierFixed (s + 1) := by
  unfold multiplierFixed
  have h1 : 11 ^ s * 1000 / 10 ^ s = 10 * (11 ^ s * 1000) / (10 * 10 ^ s) :=
    (Nat.mul_div_mul_left _ _ (by norm_num)).symm
  have h2 : 10 ^ (s + 1) = 10 * 10 ^ s := by ring
  have h3 : 11 ^ (s + 1) * 1000 = 11 * (11 ^ s * 1000) := by ring
  rw [h1, h2, h3]
  exact Nat.div_le_div_right (Nat.mul_le_mul_right _ (by norm_num))

lemma thousand_le_multiplierFixed (s : Nat) : 1000 ≤ multiplierFixed s := by
  unfold multiplierFixed
  have h1 : 10 ^ s * 1000 / 10 ^ s = 1000 :=
    Nat.mul_div_cancel_left 1000 (Nat.pos_pow_of_pos s (by norm_num))
  calc (1000 : Nat) = 10 ^ s * 1000 / 10 ^ s := h1.symm
    _ ≤ 11 ^ s * 1000 / 10 ^ s :=
        Nat.div_le_div_right (Nat.mul_le_mul_right _ (Nat.pow_le_pow_left (by norm_num) s))

lemma calculatePriceAtSupply_le_succ (b s : Nat) :
    calculatePriceAtSupply s b ≤ calculatePriceAtSupply (s + 1) b := by
  unfold calculatePriceAtSupply
  rcases Nat.eq_zero_or_pos s with hs | hs
  · subst hs
    simp only [if_pos rfl, if_neg (by norm_num : (0 : Nat) + 1 ≠ 0)]
    have hm : multiplierFixed (0 + 1) = 1100 := by norm_num [multiplierFixed]
    have hb : b ≤ b * multiplierFixed (0 + 1) / 1000 := by
      rw [hm]
      calc b = b * 1000 / 1000 := (Nat.mul_div_cancel b (by norm_num)).symm
        _ ≤ b * 1100 / 1000 :=
            Nat.div_le_div_right (Nat.mul_le_mul_left b (by norm_num))
    exact le_trans hb (le_max_left _ _)
  · rw [if_neg (by omega), if_neg (by omega)]
    exact max_le_max
      (Nat.div_le_div_right (Nat.mul_le_mul_left b (multiplierFixed_le_succ s)))
      le_rfl

lemma calculatePriceAtSupply_mono (b : Nat) :
    Monotone (fun s => calculatePriceAtSupply s b) :=
  monotone_nat_of_le_succ (calculatePriceAtSupply_le_succ b)

lemma min_price_le_calculatePriceAtSupply (b s : Nat) (hs : 1 ≤ s) :
    MIN_PRICE ≤ calculatePriceAtSupply s b := by
  unfold calculatePriceAtSupply
  rw [if_neg (by omega)]
  exact le_max_right _ _

lemma impactBN_mono (s : Nat) (isBuy : Bool) (b : Nat)
    {a a' : Nat} (h : a ≤ a') :
    impactBN s a isBuy b ≤ impactBN s a' isBuy b := by
  unfold impactBN
  cases isBuy with
  | true =>
    simp only [if_true]
    have hPN : calculatePriceAtSupply s b ≤ calculatePriceAtSupply (s + a) b :=
      calculatePriceAtSupply_mono b (Nat.le_add_right s a)
    have hPN' : calculatePriceAtSupply s b ≤ calculatePriceAtSupply (s + a') b :=
      calculatePriceAtSupply_mono b (Nat.le_add_right s a')
    have hNN : calculatePriceAtSupply (s + a) b ≤ calculatePriceAtSupply (s + a') b :=
      calculatePriceAtSupply_mono b (by omega : s + a ≤ s + a')
    rw [max_eq_left hPN, min_eq_right hPN, max_eq_left hPN', min_eq_right hPN']
    exact Nat.div_le_div_right (Nat.mul_le_mul_right _ (Nat.sub_le_sub_right hNN _))
  | false =>
    simp only [Bool.false_eq_true, if_false]
    have hPN : calculatePriceAtSupply (s - a) b ≤ calculatePriceAtSupply s b :=
      calculatePriceAtSupply_mono b (Nat.sub_le s a)
    have hPN' : calculatePriceAtSupply (s - a') b ≤ calculatePriceAtSupply s b :=
      calculatePriceAtSupply_mono b (Nat.sub_le s a')
    have hNN : calculatePriceAtSupply (s - a') b ≤ calculatePriceAtSupply (s - a) b :=
      calculatePriceAtSupply_mono b (by omega : s - a' ≤ s - a)
    rw [max_eq_right hPN, min_eq_left hPN, max_eq_right hPN', min_eq_left hPN']
    exact Nat.div_le_div_right (Nat.mul_le_mul_right _ (Nat.sub_le_sub_left hNN _))

lemma calculatePriceImpact_mono (s : Nat) (isBuy : Bool) (b : Nat)
    {a a' : Nat} (h : a ≤ a') :
    calculatePriceImpact s a isBuy b ≤ calculatePriceImpact s a' isBuy b := by
  unfold calculatePriceImpact
  apply min_le_min _ le_rfl
  have hx' : ((impactBN s a isBuy b : Nat) : ℚ) ≤ ((impactBN s a' isBuy b : Nat) : ℚ) := by
    exact_mod_cast impactBN_mono s isBuy b h
  exact (div_le_div_iff_of_pos_right (by norm_num)).2 hx'

lemma calculatePriceImpact_eval {s a : Nat} {isBuy : Bool} {b v : Nat}
    (hv : impactBN s a isBuy b = v) (hcap : (v : ℚ) / 100 ≤ 100) :
    calculatePriceImpact s a isBuy b = (v : ℚ) / 100 := by
  unfold calculatePriceImpact
  rw [hv]
  exact min_eq_left hcap

lemma optLoop_ge_one (s : Nat) (maxI : ℚ) (isBuy : Bool) (b : Nat) :
    ∀ fuel low high optimal, 1 ≤ low → 1 ≤ optimal →
      1 ≤ optLoop s maxI isBuy b fuel low high optimal := by
  intro fuel
  induction fuel with
  | zero => intro low high optimal _ hopt; exact hopt
  | succ k ih =>
    intro low high optimal hlow hopt
    unfold optLoop
    by_cases hlh : low ≤ high
    · rw [if_pos hlh]
      have hmid : low ≤ (low + high) / 2 ∧ (low + high) / 2 ≤ high := by omega
      by_cases hc : calculatePriceImpact s ((low + high) / 2) isBuy b ≤ maxI
      · rw [if_pos hc]
        exact ih _ _ _ (by omega) (by omega)
      · rw [if_neg hc]
        exact ih _ _ _ hlow hopt
    · rw [if_neg hlh]
      exact hopt

lemma optLoop_of_none_admissible (s : Nat) (maxI : ℚ) (isBuy : Bool) (b : Nat)
    (h1 : ¬ calculatePriceImpact s 1 isBuy b ≤ maxI) :
    ∀ fuel low high optimal, 1 ≤ low →
      optLoop s maxI isBuy b fuel low high optimal = optimal := by
  intro fuel
  induction fuel with
  | zero => intro low high optimal _; rfl
  | succ k ih =>
    intro low high optimal hlow
    unfold optLoop
    by_cases hlh : low ≤ high
    · rw [if_pos hlh]
      have hmid : 1 ≤ (low + high) / 2 := by omega
      have hc : ¬ calculatePriceImpact s ((low + high) / 2) isBuy b ≤ maxI := by
        intro hcmid
        exact h1 (le_trans (calculatePriceImpact_mono s isBuy b hmid) hcmid)
      rw [if_neg hc]
      exact ih _ _ _ hlow
    · rw [if_neg hlh]

lemma optLoop_spec (s : Nat) (maxI : ℚ) (isBuy : Bool) (b B : Nat) :
    ∀ fuel low high optimal,
      high + 1 - low < fuel →
      1 ≤ low →
      calculatePriceImpact s optimal isBuy b ≤ maxI →
      (∀ a, high < a → a ≤ B → ¬ calculatePriceImpact s a isBuy b ≤ maxI) →
      (low = optimal + 1 ∨ (low = 1 ∧ optimal = 1)) →
      calculatePriceImpact s (optLoop s maxI isBuy b fuel low high optimal) isBuy b ≤ maxI ∧
        ∀ a, optLoop s maxI isBuy b fuel low high optimal < a → a ≤ B →
          ¬ calculatePriceImpact s a isBuy b ≤ maxI := by
  intro fuel
  induction fuel with
  | zero => intro low high optimal hfuel; omega
  | succ k ih =>
    intro low high optimal hfuel hlow hopt hB hD
    unfold optLoop
    by_cases hlh : low ≤ high
    · rw [if_pos hlh]
      have hmid : low ≤ (low + high) / 2 ∧ (low + high) / 2 ≤ high := by omega
      by_cases hc : calculatePriceImpact s ((low + high) / 2) isBuy b ≤ maxI
      · rw [if_pos hc]
        exact ih _ _ _ (by omega) (by omega) hc hB (Or.inl rfl)
      · rw [if_neg hc]
        apply ih _ _ _ (by omega) hlow hopt _ hD
        intro a ha haB hpred
        by_cases hah : high < a
        · exact hB a hah haB hpred
        · have hma : (low + high) / 2 ≤ a := by omega
          exact hc (le_trans (calculatePriceImpact_mono s isBuy b hma) hpred)
    · rw [if_neg hlh]
      refine ⟨hopt, ?_⟩
      intro a ha haB
      rcases hD with hD | ⟨hD1, hD2⟩
      · exact hB a (by omega) haB
      · exact hB a (by omega) haB

/-! ### Claim theorems -/

/-- C1: for every currentSupply `s`, amount `n >= 1` with `s + n` within
the supply bound, the buy quote has `totalCost` equal to the sum of
`price(s + i)` for `i = 0 .. n-1`, `fee = floor(totalCost * feeRate)`
(feeRate 0.025 = 1/40), and `netCost = totalCost + fee`; concretely,
`calculateBuyPrice(0, 1)` returns totalCost 1000000, fee 25000 and
netCost 1025000. -/
theorem C1_calculateBuyPrice_correct :
    (∀ s n b, 1 ≤ n → s + n ≤ MAX_SUPPLY →
      (calculateBuyPrice s n b).totalCost
          = ∑ i ∈ Finset.range n, calculatePriceAtSupply (s + i) b ∧
        (calculateBuyPrice s n b).fee = (calculateBuyPrice s n b).totalCost / 40 ∧
        (calculateBuyPrice s n b).netCost
          = (calculateBuyPrice s n b).totalCost + (calculateBuyPrice s n b).fee) ∧
    (calculateBuyPrice 0 1 BASE_PRICE).totalCost = 1000000 ∧
    (calculateBuyPrice 0 1 BASE_PRICE).fee = 25000 ∧
    (calculateBuyPrice 0 1 BASE_PRICE).netCost = 1025000 := by
  refine ⟨?_, by decide, by decide, by decide⟩
  intro s n b _ _
  simp only [calculateBuyPrice]
  exact ⟨buyLoop_fst s b n, fee_eq_div_forty _, trivial⟩

/-- C1 witness: the general part of C1 instantiated at currentSupply 2,
amount 3, the default basePrice. -/
theorem C1_calculateBuyPrice_correct_witness :
    (calculateBuyPrice 2 3 BASE_PRICE).totalCost
        = ∑ i ∈ Finset.range 3, calculatePriceAtSupply (2 + i) BASE_PRICE ∧
      (calculateBuyPrice 2 3 BASE_PRICE).fee
        = (calculateBuyPrice 2 3 BASE_PRICE).totalCost / 40 ∧
      (calculateBuyPrice 2 3 BASE_PRICE).netCost
        = (calculateBuyPrice 2 3 BASE_PRICE).totalCost
            + (calculateBuyPrice 2 3 BASE_PRICE).fee :=
  C1_calculateBuyPrice_correct.1 2 3 BASE_PRICE (by decide) (by decide)

/-- C2: for every currentSupply `s` and amount `n` with `0 < n <= s`, the
sell quote has `totalCost` equal to the sum of `price(s - i)` for
`i = 1 .. n`, `fee = floor(totalCost * feeRate)` (feeRate 0.025 = 1/40)
and `netCost = totalCost - fee`; concretely, `calculateSellPrice(1, 1)`
returns totalCost 1000000, fee 25000 and netCost 975000. -/
theorem C2_calculateSellPrice_correct :
    (∀ s n b, 1 ≤ n → n ≤ s →
      calculateSellPrice s n b = Except.ok (sellQuote s n b) ∧
        (sellQuote s n b).totalCost
          = ∑ i ∈ Finset.range n, calculatePriceAtSupply (s - (i + 1)) b ∧
        (sellQuote s n b).fee = (sellQuote s n b).totalCost / 40 ∧
        (sellQuote s n b).netCost
          = (sellQuote s n b).totalCost - (sellQuote s n b).fee) ∧
    calculateSellPrice 1 1 BASE_PRICE = Except.ok (sellQuote 1 1 BASE_PRICE) ∧
    (sellQuote 1 1 BASE_PRICE).totalCost = 1000000 ∧
    (sellQuote 1 1 BASE_PRICE).fee = 25000 ∧
    (sellQuote 1 1 BASE_PRICE).netCost = 975000 := by
  refine ⟨?_, by rfl, by decide, by decide, by decide⟩
  intro s n b _ hns
  refine ⟨by rw [calculateSellPrice, if_neg (by omega)], ?_, ?_, ?_⟩
  · simp only [sellQuote]
    exact sellLoop_fst s b n
  · simp only [sellQuote]
    exact fee_eq_div_forty _
  · simp only [sellQuote]

/-- C2 witness: the general part of C2 instantiated at currentSupply 5,
amount 3, the default basePrice. -/
theorem C2_calculateSellPrice_correct_witness :
    calculateSellPrice 5 3 BASE_PRICE = Except.ok (sellQuote 5 3 BASE_PRICE) ∧
      (sellQuote 5 3 BASE_PRICE).totalCost
        = ∑ i ∈ Finset.range 3, calculatePriceAtSupply (5 - (i + 1)) BASE_PRICE ∧
      (sellQuote 5 3 BASE_PRICE).fee = (sellQuote 5 3 BASE_PRICE).totalCost / 40 ∧
      (sellQuote 5 3 BASE_PRICE).netCost
        = (sellQuote 5 3 BASE_PRICE).totalCost - (sellQuote 5 3 BASE_PRICE).fee :=
  C2_calculateSellPrice_correct.1 5 3 BASE_PRICE (by decide) (by decide)

/-- C3 counterexample: `calculateBuyPrice` performs no validation at all;
at amount 0 (a non-positive amount, which the claim says must yield an
error result) it returns an ordinary quote record with all priced fields
zero instead of any error. -/
theorem C3_buy_no_validation_counterexample :
    calculateBuyPrice 0 0 BASE_PRICE =
      { price := 0, totalCost := 0, fee := 0, netCost := 0,
        pricePerToken := 0, marketCap := 0 } := by
  simp only [calculateBuyPrice, buyLoop, calculateMarketCap,
    PriceCalculation.mk.injEq]
  norm_num

/-- C3 amended: `calculateBuyPrice` itself never returns an error value:
for amount 0 it returns a quote whose priced fields are all zero, and it
returns a quote for every input. The non-positive-amount and
capacity-exceeded checks are instead performed by `validateTrade`, which
returns the corresponding Invalid result values before any price-impact
computation. -/
theorem C3_buy_validation_amended :
    (∀ s (m : ℚ), validateTrade s 0 true m =
      { isValid := false, error := some "Amount must be greater than 0" }) ∧
    (∀ s n (m : ℚ), 1 ≤ n → MAX_SUPPLY < s + n →
      validateTrade s n true m =
        { isValid := false, error := some "Exceeds maximum supply" }) ∧
    (∀ s b, (calculateBuyPrice s 0 b).price = 0 ∧
      (calculateBuyPrice s 0 b).totalCost = 0 ∧
      (calculateBuyPrice s 0 b).fee = 0 ∧
      (calculateBuyPrice s 0 b).netCost = 0) := by
  refine ⟨fun s m => by rw [validateTrade, if_pos rfl], fun s n m hn hcap => ?_,
    fun s b => by refine ⟨rfl, rfl, ?_, ?_⟩ <;> simp [calculateBuyPrice, buyLoop]⟩
  rw [validateTrade, if_neg (by omega), if_pos ⟨rfl, hcap⟩]

/-- C3 witness: the amended C3 instantiated at the concrete inputs
(5, 0, buy), (999999, 2, buy) and (7, 0, default basePrice). -/
theorem C3_buy_validation_amended_witness :
    validateTrade 5 0 true 3 =
      { isValid := false, error := some "Amount must be greater than 0" } ∧
    validateTrade 999999 2 true 3 =
      { isValid := false, error := some "Exceeds maximum supply" } ∧
    (calculateBuyPrice 7 0 BASE_PRICE).netCost = 0 :=
  ⟨C3_buy_validation_amended.1 5 3,
   C3_buy_validation_amended.2.1 999999 2 3 (by decide) (by decide),
   (C3_buy_validation_amended.2.2 7 BASE_PRICE).2.2.2⟩

/-- C4 counterexample: at supply 0 the implementation returns `basePrice`
unchanged, so with basePrice 1 the returned price 1 is below the
100000 floor; and even for supply >= 1 the implemented value differs from
the claimed formula `max(minPrice, floor(basePrice * multiplier^s))`: at
supply 4 with the default basePrice the code returns 1464000 while the
formula gives 1464100. -/
theorem C4_price_floor_counterexample :
    calculatePriceAtSupply 0 1 < MIN_PRICE ∧
      calculatePriceAtSupply 4 BASE_PRICE ≠ specPriceAtSupply 4 BASE_PRICE := by
  decide

/-- C4 amended: for every basePrice and supply `s >= 1` the returned price
is `max(basePrice * floor(multiplier^s * 1000) / 1000, minPrice)` and so
is at least the 100000 floor; at supply 0 the function returns basePrice
unchanged, so the floor invariant extends to supply 0 (and hence to all
supplies) exactly when `basePrice >= minPrice`, as with the default
basePrice 1000000. -/
theorem C4_price_floor_amended :
    (∀ b s, 1 ≤ s →
      MIN_PRICE ≤ calculatePriceAtSupply s b ∧
        calculatePriceAtSupply s b = max (b * multiplierFixed s / 1000) MIN_PRICE) ∧
    (∀ b, calculatePriceAtSupply 0 b = b) ∧
    (∀ b s, MIN_PRICE ≤ b → MIN_PRICE ≤ calculatePriceAtSupply s b) := by
  refine ⟨fun b s hs => ⟨min_price_le_calculatePriceAtSupply b s hs, ?_⟩,
    fun b => rfl, fun b s hb => ?_⟩
  · rw [calculatePriceAtSupply, if_neg (by omega)]
  · rcases Nat.eq_zero_or_pos s with hs | hs
    · subst hs; exact hb
    · exact min_price_le_calculatePriceAtSupply b s hs

/-- C4 witness: the amended C4 instantiated at basePrice 1 with supply 1,
basePrice 42 with supply 0, and basePrice 100000 with supply 0. -/
theorem C4_price_floor_amended_witness :
    MIN_PRICE ≤ calculatePriceAtSupply 1 1 ∧
      calculatePriceAtSupply 0 42 = 42 ∧
      MIN_PRICE ≤ calculatePriceAtSupply 0 100000 :=
  ⟨(C4_price_floor_amended.1 1 1 (by decide)).1,
   C4_price_floor_amended.2.1 42,
   C4_price_floor_amended.2.2 100000 0 (by decide)⟩

/-- C5: for every basePrice and supply `s`, the price-at-supply step
function is monotonically non-decreasing: `price(s) <= price(s + 1)`. -/
theorem C5_price_monotone :
    ∀ b s, calculatePriceAtSupply s b ≤ calculatePriceAtSupply (s + 1) b :=
  fun b s => calculatePriceAtSupply_le_succ b s

/-- C6 counterexample: selling more than the current supply does not
produce an error result value: `calculateSellPrice(0, 1)` throws
(modelled as `Except.error`) with the message below. -/
theorem C6_sell_throws_counterexample :
    calculateSellPrice 0 1 BASE_PRICE =
      Except.error "Cannot sell more tokens than current supply" := by
  rfl

/-- C6 amended: `validateTrade` reports the expected failure conditions as
explicit result values, and `calculateBuyPrice` and the in-bounds branch
of `calculateSellPrice` never throw; but `calculateSellPrice` itself
throws an exception (modelled as `Except.error`) whenever the amount
exceeds the current supply, rather than returning an error result
value. -/
theorem C6_error_reporting_amended :
    (∀ s n b, s < n → calculateSellPrice s n b =
      Except.error "Cannot sell more tokens than current supply") ∧
    (∀ s n b, n ≤ s → calculateSellPrice s n b = Except.ok (sellQuote s n b)) ∧
    (∀ s n (m : ℚ), 1 ≤ n → s < n → validateTrade s n false m =
      { isValid := false, error := some "Cannot sell more than current supply" }) := by
  refine ⟨fun s n b h => by rw [calculateSellPrice, if_pos h],
    fun s n b h => by rw [calculateSellPrice, if_neg (by omega)],
    fun s n m hn hs => ?_⟩
  rw [validateTrade, if_neg (by omega), if_neg (by simp), if_pos ⟨rfl, hs⟩]

/-- C6 witness: the amended C6 instantiated at (0, 1), (3, 2) and
(0, 1, maxSlippage 7). -/
theorem C6_error_reporting_amended_witness :
    calculateSellPrice 0 1 7 =
      Except.error "Cannot sell more tokens than current supply" ∧
    calculateSellPrice 3 2 BASE_PRICE = Except.ok (sellQuote 3 2 BASE_PRICE) ∧
    validateTrade 0 1 false 7 =
      { isValid := false, error := some "Cannot sell more than current supply" } :=
  ⟨C6_error_reporting_amended.1 0 1 7 (by decide),
   C6_error_reporting_amended.2.1 3 2 BASE_PRICE (by decide),
   C6_error_reporting_amended.2.2 0 1 7 (by decide) (by decide)⟩

/-- C7: for every maxSlippagePercent, buying 1 unit at maxSupply is
Invalid with the capacity-exceeded reason and selling 1 unit at supply 0
is Invalid with the insufficient-supply reason; both results are
independent of the slippage tolerance because the amount, capacity and
supply checks run before any price-impact computation; concretely,
`validateTrade(999999, 2, buy, 5)` is Invalid capacity-exceeded. -/
theorem C7_validateTrade_boundary :
    (∀ m : ℚ, validateTrade MAX_SUPPLY 1 true m =
      { isValid := false, error := some "Exceeds maximum supply" }) ∧
    (∀ m : ℚ, validateTrade 0 1 false m =
      { isValid := false, error := some "Cannot sell more than current supply" }) ∧
    validateTrade 999999 2 true 5 =
      { isValid := false, error := some "Exceeds maximum supply" } := by
  refine ⟨fun m => ?_, fun m => ?_, by decide⟩
  · rw [validateTrade, if_neg (by omega), if_pos ⟨rfl, by decide⟩]
  · rw [validateTrade, if_neg (by omega), if_neg (by simp), if_pos ⟨rfl, by decide⟩]

/-- C8: the pre-fee gross amount of a buy of `n` units at supply `s`
equals the pre-fee gross amount of a sell of `n` units at supply `s + n`:
both sums range over the per-unit prices at supplies `s .. s+n-1`. The
`totalCost` fields are computed before any fee is applied, so the
identity holds for the implemented fee rate as well as for feeRate 0. -/
theorem C8_buy_sell_gross_symmetry :
    ∀ s n b, calculateSellPrice (s + n) n b = Except.ok (sellQuote (s + n) n b) ∧
      (sellQuote (s + n) n b).totalCost = (calculateBuyPrice s n b).totalCost := by
  intro s n b
  constructor
  · rw [calculateSellPrice, if_neg (by omega)]
  · show (sellLoop (s + n) b n).1 = (buyLoop s b n).1
    rw [sellLoop_fst, buyLoop_fst]
    have hcongr : ∀ i ∈ Finset.range n,
        calculatePriceAtSupply (s + n - (i + 1)) b
          = calculatePriceAtSupply (s + (n - 1 - i)) b := by
      intro i hi
      rw [Finset.mem_range] at hi
      congr 1
      omega
    rw [Finset.sum_congr rfl hcongr]
    exact Finset.sum_range_reflect (fun i => calculatePriceAtSupply (s + i) b) n

/-- C9 counterexample: when even a trade of one unit exceeds the impact
bound, `calculateOptimalTradeSize` still returns its fallback 1, whose
price impact violates the bound: with currentSupply 1, maxPriceImpact 0
and a sell, the returned amount is 1 but its price impact (9.09) is not
at most 0. -/
theorem C9_optimal_size_counterexample :
    calculateOptimalTradeSize 1 0 false BASE_PRICE = 1 ∧
      ¬ calculatePriceImpact 1 (calculateOptimalTradeSize 1 0 false BASE_PRICE)
          false BASE_PRICE ≤ 0 := by
  have himp : calculatePriceImpact 1 1 false BASE_PRICE = (909 : ℚ) / 100 :=
    calculatePriceImpact_eval (by decide) (by norm_num)
  have hno : ¬ calculatePriceImpact 1 1 false BASE_PRICE ≤ 0 := by
    rw [himp]; norm_num
  have h1 : calculateOptimalTradeSize 1 0 false BASE_PRICE = 1 := by
    unfold calculateOptimalTradeSize
    exact optLoop_of_none_admissible 1 0 false BASE_PRICE hno _ _ _ _ le_rfl
  exact ⟨h1, by rw [h1]; exact hno⟩

/-- C9 amended: whenever a single unit is admissible (its price impact is
within `maxPriceImpact`), the amount returned by
`calculateOptimalTradeSize` has price impact at most `maxPriceImpact`,
and every larger amount inside the search bound (`maxSupply -
currentSupply` for buys, `currentSupply` for sells) has price impact
exceeding it; when not even one unit is admissible the function returns
the fallback 1, which violates the bound. -/
theorem C9_optimal_size_correct :
    ∀ (s : Nat) (maxI : ℚ) (isBuy : Bool),
      calculatePriceImpact s 1 isBuy BASE_PRICE ≤ maxI →
      calculatePriceImpact s (calculateOptimalTradeSize s maxI isBuy BASE_PRICE)
          isBuy BASE_PRICE ≤ maxI ∧
        ∀ a, calculateOptimalTradeSize s maxI isBuy BASE_PRICE < a →
          a ≤ (if isBuy then MAX_SUPPLY - s else s) →
          ¬ calculatePriceImpact s a isBuy BASE_PRICE ≤ maxI := by
  intro s maxI isBuy h1
  have hspec := optLoop_spec s maxI isBuy BASE_PRICE
    (if isBuy then MAX_SUPPLY - s else s)
    ((if isBuy then MAX_SUPPLY - s else s) + 1) 1
    (if isBuy then MAX_SUPPLY - s else s) 1
    (by omega) (by omega) h1
    (fun a ha haB hpred => absurd haB (by omega))
    (Or.inr ⟨rfl, rfl⟩)
  exact hspec

/-- C9 witness: the amended C9 instantiated at currentSupply 1,
maxPriceImpact 10, sell direction, default basePrice. -/
theorem C9_optimal_size_correct_witness :
    calculatePriceImpact 1 (calculateOptimalTradeSize 1 10 false BASE_PRICE)
        false BASE_PRICE ≤ 10 :=
  (C9_optimal_size_correct 1 10 false
    (by rw [calculatePriceImpact_eval
        (by decide : impactBN 1 1 false BASE_PRICE = 909) (by norm_num)]
        norm_num)).1

/-- C10: `calculateOptimalTradeSize` always returns an amount at least 1:
the candidate starts at 1 and is returned unchanged both when the search
bound is empty (a buy at currentSupply = maxSupply, or a sell at
currentSupply = 0) and when even a one-unit trade exceeds
`maxPriceImpact`. -/
theorem C10_optimal_size_ge_one :
    (∀ (s : Nat) (maxI : ℚ) (isBuy : Bool),
      1 ≤ calculateOptimalTradeSize s maxI isBuy BASE_PRICE) ∧
    (∀ maxI : ℚ, calculateOptimalTradeSize MAX_SUPPLY maxI true BASE_PRICE = 1) ∧
    (∀ maxI : ℚ, calculateOptimalTradeSize 0 maxI false BASE_PRICE = 1) ∧
    (∀ (s : Nat) (maxI : ℚ) (isBuy : Bool),
      ¬ calculatePriceImpact s 1 isBuy BASE_PRICE ≤ maxI →
      calculateOptimalTradeSize s maxI isBuy BASE_PRICE = 1) := by
  refine ⟨fun s maxI isBuy => ?_, fun maxI => ?_, fun maxI => ?_,
    fun s maxI isBuy h1 => ?_⟩
  · exact optLoop_ge_one s maxI isBuy BASE_PRICE _ 1 _ 1 le_rfl le_rfl
  · show optLoop MAX_SUPPLY maxI true BASE_PRICE
        ((MAX_SUPPLY - MAX_SUPPLY) + 1) 1 (MAX_SUPPLY - MAX_SUPPLY) 1 = 1
    rw [Nat.sub_self]
    rw [optLoop, if_neg (by omega)]
  · show optLoop 0 maxI false BASE_PRICE (0 + 1) 1 0 1 = 1
    rw [optLoop, if_neg (by omega)]
  · exact optLoop_of_none_admissible s maxI isBuy BASE_PRICE h1 _ 1 _ 1 le_rfl

/-- C10 witness: the hypothesis-bearing part of C10 instantiated at
currentSupply 3, maxPriceImpact 0, buy direction: a one-unit buy at
supply 3 has impact 9.99, so the fallback 1 is returned. -/
theorem C10_optimal_size_ge_one_witness :
    calculateOptimalTradeSize 3 0 true BASE_PRICE = 1 :=
  C10_optimal_size_ge_one.2.2.2 3 0 true
    (by rw [calculatePriceImpact_eval
        (by decide : impactBN 3 1 true BASE_PRICE = 999) (by norm_num)]
        norm_num)
